import Mathlib

/-!
Shallow embedding of the watch-feed / channel-profile / watch-history core of the
Youtube-Backend repository (src/src/controllers/video.controller.js and
src/src/controllers/user.controllers.js), together with theorems settling the
frozen claims about it.  Controllers are embedded as pure functions over an
explicit document-store state; every operation additionally reports the ordered
list of data-store calls it issued, so that "before any data-store call" claims
can be stated.
-/

/-- A structured failure, mirroring ApiError(statusCode, message): a numeric
category and a human-readable message. -/
structure ApiError where
  code : Nat
  msg : String
deriving DecidableEq, Repr

/-- One entry of a user's watch-history list: a video reference and the
watched-at timestamp (user model; timestamps modelled as integers). -/
structure WatchEntry where
  video : String
  watchedAt : Int
deriving DecidableEq, Repr

/-- Modelled from the spec (section 3; the model files themselves are not under
src/): a stored Video document — identifier, owner reference, title, description,
duration, view count, published flag, media url and storage id, thumbnail url and
storage id, creation timestamp.  Object identifiers are modelled as strings. -/
structure VideoDoc where
  id : String
  owner : String
  title : String
  description : String
  duration : Int
  views : Nat
  isPublished : Bool
  videoUrl : String
  videoFileId : String
  thumbUrl : String
  thumbFileId : String
  createdAt : Int
deriving DecidableEq, Repr

/-- Modelled from the spec (section 3): a stored User document with the profile
fields the controllers project and the embedded watch-history list. -/
structure UserDoc where
  id : String
  username : String
  fullName : String
  avatarUrl : String
  coverImageUrl : String
  email : String
  watchHistory : List WatchEntry
deriving DecidableEq, Repr

/-- Modelled from the spec (section 3): a Like record — video reference and
liking-user reference. -/
structure LikeDoc where
  video : String
  likedBy : String
deriving DecidableEq, Repr

/-- Modelled from the spec (section 3): a Subscription record — subscriber
(user reference) and channel (user reference being subscribed to). -/
structure SubDoc where
  subscriber : String
  channel : String
deriving DecidableEq, Repr

/-- Modelled from the spec (section 3): a Comment record; only the video
reference matters here (cascade deletion). -/
structure CommentDoc where
  video : String
  author : String
deriving DecidableEq, Repr

/-- The document-store state: the five collections the embedded controllers
touch. -/
structure DB where
  videos : List VideoDoc
  users : List UserDoc
  likes : List LikeDoc
  subs : List SubDoc
  comments : List CommentDoc
deriving DecidableEq, Repr

deriving instance DecidableEq for Except

/-- Outcome of a state-mutating operation: the tagged response, the resulting
store state, and the ordered list of data-store calls issued. -/
structure OpOut (α : Type) where
  res : Except ApiError α
  db : DB
  calls : List String
deriving DecidableEq, Repr

/-- Hexadecimal character test, for object-identifier syntax. -/
def isHexChar (c : Char) : Bool :=
  c.isDigit || ('a' ≤ c && c ≤ 'f') || ('A' ≤ c && c ≤ 'F')

/-- Model of mongoose's isValidObjectId on a string: a syntactically valid
reference is exactly a 24-character hexadecimal string. -/
def isValidObjectId (s : String) : Bool :=
  s.length == 24 && s.toList.all isHexChar

/-- JS truthiness of an optional string query parameter: absent and empty string
are falsy, everything else truthy. -/
def truthy : Option String → Bool
  | none => false
  | some s => !(s == "")

/-- Model of the JS emptiness test `!s.trim()`: the string trims to empty
exactly when every character is whitespace. -/
def blankStr (s : String) : Bool :=
  s.toList.all Char.isWhitespace

/-- Model of JS toLowerCase / String.toLower over the character list (the
username normalisation of getUserChannelProfile). -/
def lowerStr (s : String) : String :=
  String.mk (s.toList.map Char.toLower)

/-- Model of JS parseInt(s, 10) on the inputs that matter here: the longest
leading run of decimal digits; `none` models NaN (no leading digit). -/
def parseIntJs (s : String) : Option Int :=
  let ds := s.toList.takeWhile Char.isDigit
  if ds.isEmpty then none
  else some (Int.ofNat (ds.foldl (fun a c => a * 10 + (c.toNat - 48)) 0))

/-- Owner summary as projected by the guest detail pipeline (video.controller
lines 212-239): username, avatar url, subscribersCount.  The sub-pipeline also
adds `isSubscribed := false`, but the sub-projection does not list that field,
so it is dropped before the owner array leaves the lookup. -/
structure GuestOwner where
  id : String
  username : String
  avatarUrl : String
  subscribersCount : Nat
deriving DecidableEq, Repr

/-- The guest detail record after the final projection (lines 254-269).
`isSubscribed` is an Option recording field presence: the top-level projection
lists `isSubscribed: 1`, but no stage leaves such a field at the top level, so
the projected document carries none. -/
structure GuestDetail where
  id : String
  videoUrl : String
  title : String
  description : String
  views : Nat
  createdAt : Int
  duration : Int
  owner : Option GuestOwner
  likesCount : Nat
  isLiked : Bool
  isSubscribed : Option Bool
deriving DecidableEq, Repr

/-- One matched video mapped through the guest pipeline stages: likes lookup,
owner lookup with nested subscriptions lookup, addFields, final projection. -/
def guestDetailOf (db : DB) (v : VideoDoc) : GuestDetail :=
  let likes := db.likes.filter (fun l => l.video == v.id)
  let ownerArr := (db.users.filter (fun u => u.id == v.owner)).map (fun u =>
    { id := u.id, username := u.username, avatarUrl := u.avatarUrl,
      subscribersCount := (db.subs.filter (fun s => s.channel == u.id)).length : GuestOwner })
  { id := v.id, videoUrl := v.videoUrl, title := v.title,
    description := v.description, views := v.views, createdAt := v.createdAt,
    duration := v.duration, owner := ownerArr.head?, likesCount := likes.length,
    isLiked := false, isSubscribed := none }

/-- getVideoByIdForGuest (video.controller lines 178-277): missing-id check,
identifier validation, then the aggregate matching on the id AND isPublished.
The not-found guard is `if (!video)` on the aggregate result — an array, which
is always truthy in JS — so that branch is dead and the controller answers
success with `video[0]` (possibly undefined, modelled as `none`). -/
def getVideoByIdForGuest (videoId : String) (db : DB) :
    Except ApiError (Option GuestDetail) × List String :=
  if blankStr videoId then (.error ⟨400, "Video Id is missing"⟩, [])
  else if !(isValidObjectId videoId) then (.error ⟨400, "Invalid VideoID"⟩, [])
  else
    let matched := db.videos.filter (fun v => v.id == videoId && v.isPublished)
    let mapped := matched.map (guestDetailOf db)
    (.ok mapped.head?, ["Video.aggregate"])

/-- Owner summary as projected by the authenticated detail pipeline (lines
317-360): here the sub-projection does keep isSubscribed. -/
structure AuthOwner where
  id : String
  username : String
  fullName : String
  avatarUrl : String
  subscribersCount : Nat
  isSubscribed : Bool
deriving DecidableEq, Repr

/-- The authenticated detail record after the final projection (lines 387-403). -/
structure AuthDetail where
  id : String
  videoUrl : String
  title : String
  description : String
  views : Nat
  createdAt : Int
  duration : Int
  owner : Option AuthOwner
  likesCount : Nat
  isLiked : Bool
deriving DecidableEq, Repr

/-- One matched video mapped through the authenticated pipeline stages.  The
viewer tests use `$in [req.user?._id, path]`; an absent identity never equals a
stored reference, modelled as `false` for `none`. -/
def authDetailOf (db : DB) (isGuest : Bool) (uid : Option String) (v : VideoDoc) :
    AuthDetail :=
  let likes := db.likes.filter (fun l => l.video == v.id)
  let ownerArr := (db.users.filter (fun u => u.id == v.owner)).map (fun u =>
    let subscribers := db.subs.filter (fun s => s.channel == u.id)
    { id := u.id, username := u.username, fullName := u.fullName,
      avatarUrl := u.avatarUrl, subscribersCount := subscribers.length,
      isSubscribed :=
        if isGuest then false
        else match uid with
          | some x => subscribers.any (fun s => s.subscriber == x)
          | none => false : AuthOwner })
  { id := v.id, videoUrl := v.videoUrl, title := v.title,
    description := v.description, views := v.views, createdAt := v.createdAt,
    duration := v.duration, owner := ownerArr.head?, likesCount := likes.length,
    isLiked :=
      if isGuest then false
      else match uid with
        | some x => likes.any (fun l => l.likedBy == x)
        | none => false }

/-- getVideoById (video.controller lines 280-411): missing-id check, identifier
validation, then the aggregate whose match stage filters ONLY on the identifier
— no isPublished condition and no ownership condition.  Here the not-found guard
correctly checks `!video.length`. -/
def getVideoById (videoId : String) (isGuest : Bool) (uid : Option String)
    (db : DB) : Except ApiError AuthDetail × List String :=
  if blankStr videoId then (.error ⟨400, "Video Id is missing"⟩, [])
  else if !(isValidObjectId videoId) then (.error ⟨400, "Invalid VideoID"⟩, [])
  else
    let matched := db.videos.filter (fun v => v.id == videoId)
    match matched.map (authDetailOf db isGuest uid) with
    | [] => (.error ⟨404, "Video not found"⟩, ["Video.aggregate"])
    | d :: _ => (.ok d, ["Video.aggregate"])

/-- Set the watchedAt of the first history entry whose video reference equals
the given id, leaving everything else unchanged (the mutation performed on the
entry found by `user.watchHistory.find`, lines 631-646). -/
def touchEntry (videoId : String) (now : Int) : List WatchEntry → List WatchEntry
  | [] => []
  | e :: es =>
    if e.video == videoId then { e with watchedAt := now } :: es
    else e :: touchEntry videoId now es

/-- Persist a user document (`user.save()`): replace every stored user carrying
this id. -/
def saveUser (db : DB) (u : UserDoc) : DB :=
  { db with users := db.users.map (fun x => if x.id == u.id then u else x) }

/-- The `$inc: { views: 1 }` update of `Video.findByIdAndUpdate` (line 637). -/
def incViews (db : DB) (videoId : String) : DB :=
  { db with videos := db.videos.map (fun v =>
      if v.id == videoId then { v with views := v.views + 1 } else v) }

/-- updateVideoViews (video.controller lines 609-655): validate the id (400),
find the video (404), find the user (404); if the user's history has no entry
for this video, increment the view counter and append
`{video, watchedAt := now}`; otherwise set only the found entry's watchedAt and
leave the counter alone. -/
def updateVideoViews (videoId : String) (userId : Option String) (now : Int)
    (db : DB) : OpOut Unit :=
  if !(isValidObjectId videoId) then ⟨.error ⟨400, "Invalid videoId"⟩, db, []⟩
  else
    match db.videos.find? (fun v => v.id == videoId) with
    | none => ⟨.error ⟨404, "Video not found"⟩, db, ["Video.findById"]⟩
    | some _ =>
      match userId.bind (fun uS => db.users.find? (fun u => u.id == uS)) with
      | none => ⟨.error ⟨404, "User not found"⟩, db,
                 ["Video.findById", "User.findById"]⟩
      | some u =>
        match u.watchHistory.find? (fun e => e.video == videoId) with
        | none =>
          let db1 := incViews db videoId
          let db2 := saveUser db1
            { u with watchHistory := u.watchHistory ++ [⟨videoId, now⟩] }
          ⟨.ok (), db2,
           ["Video.findById", "User.findById", "Video.findByIdAndUpdate",
            "User.save"]⟩
        | some _ =>
          ⟨.ok (), saveUser db
             { u with watchHistory := touchEntry videoId now u.watchHistory },
           ["Video.findById", "User.findById", "User.save"]⟩

/-- deleteVideo (video.controller lines 497-524): NO identifier validation; a
findById (404 when absent); a findByIdAndDelete whose store-level outcome is the
`delOk` oracle — on failure a 500 is thrown, the store is untouched and no
cascade runs; only after the checked primary delete do the cascades run:
Like.deleteMany, Comment.deleteMany and the two cloudinary destroy requests.
The ok payload lists the storage ids whose removal was requested. -/
def deleteVideo (videoId : String) (delOk : Bool) (db : DB) :
    OpOut (List String) :=
  match db.videos.find? (fun v => v.id == videoId) with
  | none => ⟨.error ⟨404, "Video not found"⟩, db, ["Video.findById"]⟩
  | some cur =>
    if delOk then
      ⟨.ok [cur.videoFileId, cur.thumbFileId],
       { db with
          videos := db.videos.filter (fun v => !(v.id == videoId)),
          likes := db.likes.filter (fun l => !(l.video == videoId)),
          comments := db.comments.filter (fun c => !(c.video == videoId)) },
       ["Video.findById", "Video.findByIdAndDelete", "Like.deleteMany",
        "Comment.deleteMany", "cloudinary.destroy", "cloudinary.destroy"]⟩
    else
      ⟨.error ⟨500, "Video deletion failed"⟩, db,
       ["Video.findById", "Video.findByIdAndDelete"]⟩

/-- Aggregation value for the channel-profile expression evaluator: an array of
subscription documents, a string literal, or a missing field. -/
inductive AggVal
  | arr (xs : List SubDoc)
  | str (s : String)
  | missing
deriving DecidableEq, Repr

/-- A user document after the two channel-profile lookups (user.controllers
lines 416-432).  The first lookup's alias is "subcription" (source spelling),
the second's is "subscribedTo". -/
structure MatchedChannel where
  u : UserDoc
  subcription : List SubDoc
  subscribedTo : List SubDoc
deriving DecidableEq, Repr

/-- Field resolution on the looked-up document: only the two lookup aliases
exist as array fields; any other name is missing. -/
def MatchedChannel.getArr (m : MatchedChannel) : String → Option (List SubDoc)
  | "subcription" => some m.subcription
  | "subscribedTo" => some m.subscribedTo
  | _ => none

/-- Aggregation operand evaluation: a string starting with `$` is a field path,
any other string is a literal (this is where the source's missing `$` prefixes
matter). -/
def evalOperand (m : MatchedChannel) (s : String) : AggVal :=
  match s.toList with
  | '$' :: rest =>
    match m.getArr (String.mk rest) with
    | some xs => .arr xs
    | none => .missing
  | _ => .str s

/-- The $size aggregation operator: defined on arrays, an error on anything
else (messages follow the store's wording). -/
def aggSize : AggVal → Except String Nat
  | .arr xs => .ok xs.length
  | .str _ =>
    .error "The argument to $size must be an array, but was of type: string"
  | .missing =>
    .error "The argument to $size must be an array, but was of type: missing"

/-- The $in aggregation operator with an optional viewer identity as first
argument: membership in an array of subscription documents (an absent identity
matches nothing), an error when the second argument is not an array. -/
def aggIn (uid : Option String) : AggVal → Except String Bool
  | .arr xs =>
    .ok (match uid with
      | some x => xs.any (fun s => s.subscriber == x)
      | none => false)
  | _ => .error "$in requires an array as a second argument"

/-- The channel summary the projection (lines 450-462) would produce. -/
structure ChannelProfile where
  fullName : String
  username : String
  subscribersCount : Nat
  channelSubscribedToCount : Nat
  isSubscribed : Bool
  avatarUrl : String
  coverImageUrl : String
  email : String
deriving DecidableEq, Repr

/-- The subscribersCount expression as written in the source (line 435-437):
`$size: "$subscribers"` — a path to a field no stage produced. -/
def chanSubscribersCount (m : MatchedChannel) : Except String Nat :=
  aggSize (evalOperand m "$subscribers")

/-- The channelSubscribedToCount expression as written (line 438-440):
`$size: "subscribedTo"` — a string literal, the `$` prefix is missing. -/
def chanSubscribedToCount (m : MatchedChannel) : Except String Nat :=
  aggSize (evalOperand m "subscribedTo")

/-- The isSubscribed expression as written (line 441-447):
`$in: [req.user?._id, "subscribers.subscriber"]` — the second argument is a
string literal, the `$` prefix is missing. -/
def chanIsSubscribed (uid : Option String) (m : MatchedChannel) :
    Except String Bool :=
  aggIn uid (evalOperand m "subscribers.subscriber")

/-- The $addFields stage of getUserChannelProfile (lines 433-449), expressions
exactly as in the source, followed by the projection. -/
def channelAddFields (uid : Option String) (m : MatchedChannel) :
    Except String ChannelProfile := do
  let sc ← chanSubscribersCount m
  let sto ← chanSubscribedToCount m
  let isub ← chanIsSubscribed uid m
  .ok { fullName := m.u.fullName, username := m.u.username,
        subscribersCount := sc, channelSubscribedToCount := sto,
        isSubscribed := isub, avatarUrl := m.u.avatarUrl,
        coverImageUrl := m.u.coverImageUrl, email := m.u.email }

/-- The channel-profile lookups.  The source's `from: "subcription"` does not
name the store's subscription collection; the join is modelled generously as
reaching the subscription data anyway — the later field references are broken
either way. -/
def matchedChannelOf (db : DB) (u : UserDoc) : MatchedChannel :=
  { u := u,
    subcription := db.subs.filter (fun s => s.channel == u.id),
    subscribedTo := db.subs.filter (fun s => s.subscriber == u.id) }

/-- getUserChannelProfile (user.controllers lines 403-481): missing-username
check, match by lowercased username, the two lookups, the $addFields whose
expressions fail, then the projection; an aggregation error surfaces as a
500-category failure, an empty result as 404. -/
def getUserChannelProfile (username : String) (uid : Option String) (db : DB) :
    Except ApiError ChannelProfile × List String :=
  if blankStr username then (.error ⟨400, "username is missing"⟩, [])
  else
    let matched := db.users.filter (fun x => x.username == lowerStr username)
    match (matched.map (matchedChannelOf db)).mapM (channelAddFields uid) with
    | .error e => (.error ⟨500, e⟩, ["User.aggregate"])
    | .ok [] => (.error ⟨404, "channel does not exists"⟩, ["User.aggregate"])
    | .ok (c :: _) => (.ok c, ["User.aggregate"])

/-- The aggregation stages getAllVideos pushes (video.controller lines 22-89). -/
inductive PStage
  | search (q : String)
  | matchOwner (uid : String)
  | matchPublished
  | sortOn (field : String) (asc : Bool)
  | lookupOwner
  | unwindOwner
deriving DecidableEq, Repr

/-- Owner summary projected inside the feed's owner lookup (lines 76-83). -/
structure FeedOwner where
  id : String
  username : String
  avatarUrl : String
deriving DecidableEq, Repr

/-- A document flowing through the feed pipeline: the video plus the owner
details produced by the lookup (empty before the lookup, a singleton after the
unwind). -/
structure PipeDoc where
  v : VideoDoc
  ownerDetails : List FeedOwner
deriving DecidableEq, Repr

/-- Character-list helper: the first list leads the second. -/
def leadsChars : List Char → List Char → Bool
  | [], _ => true
  | _ :: _, [] => false
  | a :: as, b :: bs => a == b && leadsChars as bs

/-- Character-list helper: the first list occurs contiguously in the second. -/
def occursChars (n : List Char) : List Char → Bool
  | [] => leadsChars n []
  | c :: cs => leadsChars n (c :: cs) || occursChars n cs

/-- Model of the $search full-text stage restricted to the title/description
paths (lines 27-35): the query text occurs in the title or the description. -/
def textMatch (q : String) (v : VideoDoc) : Bool :=
  occursChars q.toList v.title.toList || occursChars q.toList v.description.toList

/-- Numeric sort-key model for $sort on a named video field. -/
def fieldVal (f : String) (v : VideoDoc) : Int :=
  if f == "views" then (v.views : Int)
  else if f == "createdAt" then v.createdAt
  else if f == "duration" then v.duration
  else 0

/-- Insert into a list sorted by the given comparison. -/
def insertLe (le : α → α → Bool) (a : α) : List α → List α
  | [] => [a]
  | b :: bs => if le a b then a :: b :: bs else b :: insertLe le a bs

/-- Insertion sort by the given comparison (the model of the $sort stage). -/
def sortWith (le : α → α → Bool) : List α → List α
  | [] => []
  | a :: as => insertLe le a (sortWith le as)

/-- Semantics of one feed pipeline stage over the store. -/
def applyStage (db : DB) : PStage → List PipeDoc → List PipeDoc
  | .search q, docs => docs.filter (fun d => textMatch q d.v)
  | .matchOwner uid, docs => docs.filter (fun d => d.v.owner == uid)
  | .matchPublished, docs => docs.filter (fun d => d.v.isPublished)
  | .sortOn f asc, docs =>
    sortWith (fun a b =>
      if asc then decide (fieldVal f a.v ≤ fieldVal f b.v)
      else decide (fieldVal f b.v ≤ fieldVal f a.v)) docs
  | .lookupOwner, docs => docs.map (fun d =>
      let arr := (db.users.filter (fun u => u.id == d.v.owner)).map
        (fun u => { id := u.id, username := u.username,
                    avatarUrl := u.avatarUrl : FeedOwner })
      { d with ownerDetails := arr })
  | .unwindOwner, docs =>
    docs.flatMap (fun d => d.ownerDetails.map (fun o => { d with ownerDetails := [o] }))

/-- Execute a stage list strictly in the order given. -/
def runStages (db : DB) (stages : List PStage) (docs : List PipeDoc) :
    List PipeDoc :=
  stages.foldl (fun acc s => applyStage db s acc) docs

/-- Pipeline construction of getAllVideos (lines 22-89), in source order:
optional $search; optional owner $match, throwing the validation error on a
malformed owner id before anything reaches the store; the mandatory isPublished
$match; $sort by the requested field/direction when both are given, else by
createdAt descending; the owner $lookup and $unwind. -/
def getAllVideosPipeline (query userId sortBy sortType : Option String) :
    Except ApiError (List PStage) :=
  let p : List PStage := []
  let p := if truthy query then p ++ [.search (query.getD "")] else p
  if truthy userId && !(isValidObjectId (userId.getD "")) then
    .error ⟨400, "Invalid userId"⟩
  else
    let p := if truthy userId then p ++ [.matchOwner (userId.getD "")] else p
    let p := p ++ [.matchPublished]
    let p :=
      if truthy sortBy && truthy sortType then
        p ++ [.sortOn (sortBy.getD "") (sortType.getD "" == "asc")]
      else p ++ [.sortOn "createdAt" false]
    .ok (p ++ [.lookupOwner, .unwindOwner])

/-- Pagination option of getAllVideos: parseInt of the given string, or the
destructuring default when the parameter is absent (lines 19, 95-98). -/
def pageNumOf : Option String → Int → Option Int
  | none, d => some d
  | some s, _ => parseIntJs s

/-- The pagination slice applied by aggregatePaginate: skip (page-1)*limit, take
limit.  A NaN or out-of-domain page/limit is rejected by the store (`none`);
pages past the end yield an empty slice, not an error. -/
def paginateJs (p l : Option Int) (docs : List α) : Option (List α) :=
  match p, l with
  | some p, some l =>
    if 1 ≤ p ∧ 0 ≤ l then
      some ((docs.drop ((p - 1) * l).toNat).take l.toNat)
    else none
  | _, _ => none

/-- The query parameters of getAllVideos (line 19). -/
structure FeedParams where
  page : Option String
  limit : Option String
  query : Option String
  sortBy : Option String
  sortType : Option String
  userId : Option String
deriving DecidableEq, Repr

/-- getAllVideos (video.controller lines 17-107): build the pipeline (a
malformed owner id aborts with a validation error before any store call), run
it over the videos collection, then aggregatePaginate with parseInt'd
page/limit — pagination inputs are never validated, so a malformed one still
reaches the store call. -/
def getAllVideos (ps : FeedParams) (db : DB) :
    Except ApiError (List PipeDoc) × List String :=
  match getAllVideosPipeline ps.query ps.userId ps.sortBy ps.sortType with
  | .error e => (.error e, [])
  | .ok stages =>
    let docs := runStages db stages (db.videos.map (fun v => ⟨v, []⟩))
    match paginateJs (pageNumOf ps.page 1) (pageNumOf ps.limit 10) docs with
    | some pg => (.ok pg, ["Video.aggregatePaginate"])
    | none => (.error ⟨500, "aggregatePaginate failed"⟩, ["Video.aggregatePaginate"])

/-- The sort stage of the feed pipeline: the requested field/direction when
both sortBy and sortType are given (non-empty), otherwise createdAt descending
(spec section 4.4, stage 4). -/
def specSortStage (sortBy sortType : Option String) : PStage :=
  if truthy sortBy && truthy sortType then
    .sortOn (sortBy.getD "") (sortType.getD "" == "asc")
  else .sortOn "createdAt" false

/-- The stage order the spec prescribes for the feed pipeline, written from the
spec's words (section 4.4) for comparison against the pipeline the source
builds: optional full-text search, optional owner filter, mandatory
published-only filter, sort, owner join, unwind. -/
def specStages (query userId sortBy sortType : Option String) : List PStage :=
  (if truthy query then [.search (query.getD "")] else []) ++
  (if truthy userId then [.matchOwner (userId.getD "")] else []) ++
  ([PStage.matchPublished] ++
   ([specSortStage sortBy sortType] ++ [.lookupOwner, .unwindOwner]))

/-- Sample object identifier (24 hex characters): a published video. -/
def oidA : String := "aaaaaaaaaaaaaaaaaaaaaaaa"

/-- Sample object identifier: the owner of the sample videos. -/
def oidB : String := "bbbbbbbbbbbbbbbbbbbbbbbb"

/-- Sample object identifier: a viewer. -/
def oidC : String := "cccccccccccccccccccccccc"

/-- Sample object identifier: an unpublished video. -/
def oidD : String := "dddddddddddddddddddddddd"

/-- Sample published video owned by oidB. -/
def vPub : VideoDoc :=
  ⟨oidA, oidB, "title one", "first description", 10, 5, true,
   "vu1", "vf1", "tu1", "tf1", 100⟩

/-- Sample unpublished video owned by oidB. -/
def vUnpub : VideoDoc :=
  ⟨oidD, oidB, "title two", "second description", 20, 0, false,
   "vu2", "vf2", "tu2", "tf2", 200⟩

/-- Sample channel owner. -/
def uOwner : UserDoc := ⟨oidB, "alice", "Alice A", "avA", "covA", "a@x", []⟩

/-- Sample viewer with an empty watch history. -/
def uViewer : UserDoc := ⟨oidC, "carol", "Carol C", "avC", "covC", "c@x", []⟩

/-- Sample viewer who has already watched the published video. -/
def uViewerSeen : UserDoc :=
  ⟨oidC, "carol", "Carol C", "avC", "covC", "c@x", [⟨oidA, 50⟩]⟩

/-- Sample store: both videos, both users, one like on the published video by
the viewer, one subscription of the viewer to the owner, one comment. -/
def dbMain : DB :=
  ⟨[vPub, vUnpub], [uOwner, uViewer], [⟨oidA, oidC⟩], [⟨oidC, oidB⟩],
   [⟨oidA, oidC⟩]⟩

/-- Sample store with no documents at all. -/
def dbEmpty : DB := ⟨[], [], [], [], []⟩

/-- Sample store holding only the unpublished video and its owner. -/
def dbUnpub : DB := ⟨[vUnpub], [uOwner], [], [], []⟩

/-- Sample store for a repeat view: the published video and the viewer who has
already watched it. -/
def dbSeen : DB := ⟨[vPub], [uViewerSeen], [], [], []⟩

/-- find? commutes with a map that preserves the predicate's value. -/
theorem find?_map_pres {α : Type} (p : α → Bool) (f : α → α)
    (hp : ∀ x, p (f x) = p x) (l : List α) :
    (l.map f).find? p = (l.find? p).map f := by
  induction l with
  | nil => rfl
  | cons a as ih =>
    by_cases h : p a = true
    · have hf : p (f a) = true := by rw [hp]; exact h
      rw [List.map_cons, List.find?_cons_of_pos _ hf, List.find?_cons_of_pos _ h]
      rfl
    · have hf : ¬p (f a) = true := by rw [hp]; exact h
      rw [List.map_cons, List.find?_cons_of_neg _ hf, List.find?_cons_of_neg _ h, ih]

/-- find? over an append whose left part has no match. -/
theorem find?_append_none {α : Type} (p : α → Bool) (l1 l2 : List α)
    (h : l1.find? p = none) : (l1 ++ l2).find? p = l2.find? p := by
  induction l1 with
  | nil => rfl
  | cons a as ih =>
    by_cases ha : p a = true
    · rw [List.find?_cons_of_pos _ ha] at h; cases h
    · rw [List.find?_cons_of_neg _ ha] at h
      rw [List.cons_append, List.find?_cons_of_neg _ ha, ih h]

/-- A successful find? splits the list at the first match. -/
theorem find?_split {α : Type} (p : α → Bool) (l : List α) (a : α)
    (h : l.find? p = some a) :
    ∃ l1 l2, l = l1 ++ a :: l2 ∧ (∀ x ∈ l1, p x = false) ∧ p a = true := by
  induction l with
  | nil => cases h
  | cons b bs ih =>
    by_cases hb : p b = true
    · rw [List.find?_cons_of_pos _ hb] at h
      cases h
      exact ⟨[], bs, rfl, by simp, hb⟩
    · rw [List.find?_cons_of_neg _ hb] at h
      obtain ⟨l1, l2, hsplit, hl1, hpa⟩ := ih h
      refine ⟨b :: l1, l2, by rw [hsplit]; rfl, ?_, hpa⟩
      intro x hx
      rcases List.mem_cons.mp hx with hxb | hxl
      · subst hxb; revert hb; cases p x <;> simp
      · exact hl1 x hxl

/-- touchEntry walks unchanged over a region with no matching entry. -/
theorem touchEntry_append_clean (vid : String) (now : Int)
    (l1 l2 : List WatchEntry) (h : ∀ e ∈ l1, (e.video == vid) = false) :
    touchEntry vid now (l1 ++ l2) = l1 ++ touchEntry vid now l2 := by
  induction l1 with
  | nil => rfl
  | cons a as ih =>
    have ha := h a (by simp)
    have ih' := ih (fun e he => h e (by simp [he]))
    show touchEntry vid now (a :: (as ++ l2)) = a :: (as ++ touchEntry vid now l2)
    simp only [touchEntry, ha, Bool.false_eq_true, if_false]
    exact congrArg (a :: ·) ih'

/-- touchEntry on a list whose head matches updates only that head. -/
theorem touchEntry_cons_match (vid : String) (now : Int) (e : WatchEntry)
    (l : List WatchEntry) (h : (e.video == vid) = true) :
    touchEntry vid now (e :: l) = { e with watchedAt := now } :: l := by
  simp [touchEntry, h]

/-- incViews changes no identifier, so find?-by-id just maps through. -/
theorem incViews_find? (db : DB) (vid : String) :
    (incViews db vid).videos.find? (fun v => v.id == vid) =
      (db.videos.find? (fun v => v.id == vid)).map
        (fun v => if v.id == vid then { v with views := v.views + 1 } else v) := by
  unfold incViews
  exact find?_map_pres _ _ (fun x => by cases h : x.id == vid <;> simp [h]) _

/-- saveUser changes no identifier, so find?-by-id just maps through. -/
theorem saveUser_find? (db : DB) (u' : UserDoc) (uidS : String)
    (hid : (u'.id == uidS) = true) :
    (saveUser db u').users.find? (fun x => x.id == uidS) =
      (db.users.find? (fun x => x.id == uidS)).map
        (fun x => if x.id == u'.id then u' else x) := by
  unfold saveUser
  refine find?_map_pres _ _ (fun x => ?_) _
  cases h : x.id == u'.id
  · simp [h]
  · have hx : x.id = u'.id := eq_of_beq h
    simp [h, hx, hid]

/-- Characterization of one updateVideoViews call when the history has no entry
for the video: increment the counter and append. -/
theorem updateVideoViews_append (db : DB) (vid uidS : String) (now : Int)
    (v : VideoDoc) (u : UserDoc)
    (hvalid : isValidObjectId vid = true)
    (hv : db.videos.find? (fun x => x.id == vid) = some v)
    (hu : db.users.find? (fun x => x.id == uidS) = some u)
    (hnone : u.watchHistory.find? (fun e => e.video == vid) = none) :
    updateVideoViews vid (some uidS) now db =
      ⟨.ok (), saveUser (incViews db vid)
        { u with watchHistory := u.watchHistory ++ [⟨vid, now⟩] },
       ["Video.findById", "User.findById", "Video.findByIdAndUpdate",
        "User.save"]⟩ := by
  simp [updateVideoViews, hvalid, hv, hu, hnone, Option.bind]

/-- Characterization of one updateVideoViews call when the history already has
an entry for the video: rewrite only that entry's timestamp. -/
theorem updateVideoViews_touch (db : DB) (vid uidS : String) (now : Int)
    (v : VideoDoc) (u : UserDoc) (e : WatchEntry)
    (hvalid : isValidObjectId vid = true)
    (hv : db.videos.find? (fun x => x.id == vid) = some v)
    (hu : db.users.find? (fun x => x.id == uidS) = some u)
    (hsome : u.watchHistory.find? (fun x => x.video == vid) = some e) :
    updateVideoViews vid (some uidS) now db =
      ⟨.ok (), saveUser db
        { u with watchHistory := touchEntry vid now u.watchHistory },
       ["Video.findById", "User.findById", "User.save"]⟩ := by
  simp [updateVideoViews, hvalid, hv, hu, hsome, Option.bind]

/-- Claim C1: the watch-history upsert.  With no existing entry for the video,
updateVideoViews increments the view counter by one and appends
{video, watchedAt = now}; with an existing entry it rewrites only that entry's
watchedAt and leaves the counter alone; hence two successive calls increment
the counter exactly once and leave exactly one entry for the video, carrying
the second call's timestamp. -/
theorem claim_C1 (db : DB) (vid uidS : String) (now1 now2 : Int)
    (v : VideoDoc) (u : UserDoc)
    (hvalid : isValidObjectId vid = true)
    (hv : db.videos.find? (fun x => x.id == vid) = some v)
    (hu : db.users.find? (fun x => x.id == uidS) = some u) :
    (u.watchHistory.find? (fun e => e.video == vid) = none →
      (updateVideoViews vid (some uidS) now1 db).res = .ok () ∧
      (updateVideoViews vid (some uidS) now1 db).db.videos.find?
          (fun x => x.id == vid) = some { v with views := v.views + 1 } ∧
      (updateVideoViews vid (some uidS) now1 db).db.users.find?
          (fun x => x.id == uidS) =
        some { u with watchHistory := u.watchHistory ++ [⟨vid, now1⟩] } ∧
      (updateVideoViews vid (some uidS) now2
          ((updateVideoViews vid (some uidS) now1 db).db)).res = .ok () ∧
      (updateVideoViews vid (some uidS) now2
          ((updateVideoViews vid (some uidS) now1 db).db)).db.videos.find?
          (fun x => x.id == vid) = some { v with views := v.views + 1 } ∧
      (updateVideoViews vid (some uidS) now2
          ((updateVideoViews vid (some uidS) now1 db).db)).db.users.find?
          (fun x => x.id == uidS) =
        some { u with watchHistory := u.watchHistory ++ [⟨vid, now2⟩] } ∧
      List.filter (fun e => e.video == vid)
          (u.watchHistory ++ [(⟨vid, now2⟩ : WatchEntry)]) = [⟨vid, now2⟩]) ∧
    (∀ e, u.watchHistory.find? (fun e2 => e2.video == vid) = some e →
      (updateVideoViews vid (some uidS) now2 db).res = .ok () ∧
      (updateVideoViews vid (some uidS) now2 db).db.videos = db.videos ∧
      ∃ l1 l2, u.watchHistory = l1 ++ e :: l2 ∧
        (∀ x ∈ l1, (x.video == vid) = false) ∧
        (updateVideoViews vid (some uidS) now2 db).db.users.find?
            (fun x => x.id == uidS) =
          some { u with watchHistory := l1 ++ { e with watchedAt := now2 } :: l2 }) := by
  have hvid : (v.id == vid) = true := by simpa using List.find?_some hv
  have huid : (u.id == uidS) = true := by simpa using List.find?_some hu
  constructor
  · intro hnone
    have hclean : ∀ e ∈ u.watchHistory, (e.video == vid) = false := by
      intro e he
      have h' := List.find?_eq_none.mp hnone e he
      revert h'; cases (e.video == vid) <;> simp
    have e1 := updateVideoViews_append db vid uidS now1 v u hvalid hv hu hnone
    have hid1 : (({ u with watchHistory :=
        u.watchHistory ++ [(⟨vid, now1⟩ : WatchEntry)] } : UserDoc).id == uidS)
        = true := huid
    have hdb1v : (saveUser (incViews db vid)
        { u with watchHistory := u.watchHistory ++ [⟨vid, now1⟩] }).videos.find?
        (fun x => x.id == vid) = some { v with views := v.views + 1 } := by
      show (incViews db vid).videos.find? (fun x => x.id == vid) = _
      rw [incViews_find?, hv, Option.map_some']
      simp [hvid]
    have hdb1u : (saveUser (incViews db vid)
        { u with watchHistory := u.watchHistory ++ [⟨vid, now1⟩] }).users.find?
        (fun x => x.id == uidS) =
        some { u with watchHistory := u.watchHistory ++ [⟨vid, now1⟩] } := by
      rw [saveUser_find? _ _ _ hid1]
      have husers : (incViews db vid).users = db.users := rfl
      rw [husers, hu, Option.map_some']
      simp
    have hfind1 : ({ u with watchHistory :=
        u.watchHistory ++ [⟨vid, now1⟩] } : UserDoc).watchHistory.find?
        (fun x => x.video == vid) = some ⟨vid, now1⟩ := by
      show (u.watchHistory ++ [(⟨vid, now1⟩ : WatchEntry)]).find?
        (fun x => x.video == vid) = _
      rw [find?_append_none _ _ _ hnone]
      exact List.find?_cons_of_pos _ (beq_self_eq_true vid)
    have htouch : touchEntry vid now2
        (u.watchHistory ++ [(⟨vid, now1⟩ : WatchEntry)]) =
        u.watchHistory ++ [⟨vid, now2⟩] := by
      rw [touchEntry_append_clean _ _ _ _ hclean,
          touchEntry_cons_match _ _ _ _ (beq_self_eq_true vid)]
    have e2 := updateVideoViews_touch
      (saveUser (incViews db vid)
        { u with watchHistory := u.watchHistory ++ [⟨vid, now1⟩] })
      vid uidS now2 { v with views := v.views + 1 }
      { u with watchHistory := u.watchHistory ++ [⟨vid, now1⟩] }
      ⟨vid, now1⟩ hvalid hdb1v hdb1u hfind1
    refine ⟨by rw [e1], by rw [e1]; exact hdb1v, by rw [e1]; exact hdb1u,
      ?_, ?_, ?_, ?_⟩
    · rw [e1]
      show (updateVideoViews vid (some uidS) now2 (saveUser (incViews db vid)
        { u with watchHistory := u.watchHistory ++ [⟨vid, now1⟩] })).res = _
      rw [e2]
    · rw [e1]
      show (updateVideoViews vid (some uidS) now2 (saveUser (incViews db vid)
        { u with watchHistory := u.watchHistory ++ [⟨vid, now1⟩] })).db.videos.find?
        (fun x => x.id == vid) = _
      rw [e2]
      exact hdb1v
    · rw [e1]
      show (updateVideoViews vid (some uidS) now2 (saveUser (incViews db vid)
        { u with watchHistory := u.watchHistory ++ [⟨vid, now1⟩] })).db.users.find?
        (fun x => x.id == uidS) = _
      rw [e2]
      have hidNU : (({ u with watchHistory :=
          (touchEntry vid now2 (u.watchHistory ++ [⟨vid, now1⟩])) } :
          UserDoc).id == uidS) = true := huid
      show (saveUser (saveUser (incViews db vid)
          { u with watchHistory := u.watchHistory ++ [⟨vid, now1⟩] })
          { u with watchHistory :=
            (touchEntry vid now2 (u.watchHistory ++ [⟨vid, now1⟩])) }).users.find?
        (fun x => x.id == uidS) = _
      rw [saveUser_find? _ _ _ hidNU, hdb1u, Option.map_some']
      simp [htouch]
    · rw [List.filter_append]
      have hleft : u.watchHistory.filter (fun e => e.video == vid) = [] := by
        rw [List.filter_eq_nil_iff]
        intro e he
        simp [hclean e he]
      rw [hleft]
      simp [List.filter_cons, beq_self_eq_true]
  · intro e hsome
    have e3 := updateVideoViews_touch db vid uidS now2 v u e hvalid hv hu hsome
    obtain ⟨l1, l2, hsplit, hl1, hpe⟩ := find?_split _ _ _ hsome
    have hl1' : ∀ x ∈ l1, (x.video == vid) = false := by
      intro x hx
      have h' := hl1 x hx
      revert h'; cases (x.video == vid) <;> simp
    have htouch : touchEntry vid now2 u.watchHistory =
        l1 ++ { e with watchedAt := now2 } :: l2 := by
      rw [hsplit, touchEntry_append_clean _ _ _ _ hl1',
          touchEntry_cons_match _ _ _ _ hpe]
    refine ⟨by rw [e3], by rw [e3]; rfl, l1, l2, hsplit, hl1', ?_⟩
    rw [e3]
    have hid3 : (({ u with watchHistory :=
        (touchEntry vid now2 u.watchHistory) } : UserDoc).id == uidS)
        = true := huid
    show (saveUser db { u with watchHistory :=
        (touchEntry vid now2 u.watchHistory) }).users.find?
      (fun x => x.id == uidS) = _
    rw [saveUser_find? _ _ _ hid3, hu, Option.map_some']
    simp [htouch]

/-- Witness for claim C1 at a concrete store: after two successive calls for
the same (viewer, video) pair, the views went from 5 to 6 exactly once, the
history holds the single entry stamped by the second call, and a repeat view on
another store leaves the videos untouched. -/
theorem claim_C1_witness :
    (updateVideoViews oidA (some oidC) 11
        ((updateVideoViews oidA (some oidC) 7 dbMain).db)).db.videos.find?
        (fun x => x.id == oidA) = some { vPub with views := vPub.views + 1 } ∧
    (updateVideoViews oidA (some oidC) 11
        ((updateVideoViews oidA (some oidC) 7 dbMain).db)).db.users.find?
        (fun x => x.id == oidC) =
      some { uViewer with watchHistory := uViewer.watchHistory ++ [⟨oidA, 11⟩] } ∧
    (updateVideoViews oidA (some oidC) 11 dbSeen).db.videos = dbSeen.videos :=
  ⟨((claim_C1 dbMain oidA oidC 7 11 vPub uViewer (by decide) (by decide)
      (by decide)).1 (by decide)).2.2.2.2.1,
   ((claim_C1 dbMain oidA oidC 7 11 vPub uViewer (by decide) (by decide)
      (by decide)).1 (by decide)).2.2.2.2.2.1,
   ((claim_C1 dbSeen oidA oidC 7 11 vPub uViewerSeen (by decide) (by decide)
      (by decide)).2 ⟨oidA, 50⟩ (by decide)).2.1⟩

/-- Claim C2, evaluated on the code: for a syntactically valid identifier the
guest detail operation does NOT return a Not-Found failure — because the
`!video` guard tests an aggregate result array, which is always truthy, it
returns a success with an empty payload, both when no such video exists and
when the video exists but is unpublished.  The two outcomes are indeed
indistinguishable, but both are a success, not the claimed failure. -/
theorem claim_C2 :
    (getVideoByIdForGuest oidD dbEmpty).1 = .ok none ∧
    (getVideoByIdForGuest oidD dbUnpub).1 = .ok none ∧
    (getVideoByIdForGuest oidD dbEmpty).1 = (getVideoByIdForGuest oidD dbUnpub).1 ∧
    ∀ e : ApiError, (getVideoByIdForGuest oidD dbUnpub).1 ≠ .error e := by
  refine ⟨by decide, by decide, by decide, ?_⟩
  intro e h
  rw [show (getVideoByIdForGuest oidD dbUnpub).1 = .ok none from by decide] at h
  exact Except.noConfusion h

/-- Claim C3, settled on the code: for a published video fetched as a guest,
isLiked is false, likesCount is the exact number of matching Like records and
the owner's subscribersCount is the exact number of matching Subscription
records — but the projected record carries NO isSubscribed field at all
(`none`): the owner sub-projection drops the `isSubscribed := false` the
pipeline had just added, so the claimed `isSubscribed = false` is absent. -/
theorem claim_C3 (db : DB) (vid : String) (v : VideoDoc) (u : UserDoc)
    (hblank : blankStr vid = false)
    (hvalid : isValidObjectId vid = true)
    (hv : (db.videos.filter (fun x => x.id == vid && x.isPublished)).head? = some v)
    (hu : (db.users.filter (fun x => x.id == v.owner)).head? = some u) :
    (getVideoByIdForGuest vid db).1 = .ok (some (guestDetailOf db v)) ∧
    (guestDetailOf db v).isLiked = false ∧
    (guestDetailOf db v).isSubscribed = none ∧
    (guestDetailOf db v).likesCount =
      (db.likes.filter (fun l => l.video == v.id)).length ∧
    (guestDetailOf db v).owner = some
      { id := u.id, username := u.username, avatarUrl := u.avatarUrl,
        subscribersCount := (db.subs.filter (fun s => s.channel == u.id)).length } := by
  refine ⟨?_, rfl, rfl, rfl, ?_⟩
  · have h1 : (getVideoByIdForGuest vid db).1 =
        .ok (((db.videos.filter (fun x => x.id == vid && x.isPublished)).map
          (guestDetailOf db)).head?) := by
      simp [getVideoByIdForGuest, hblank, hvalid]
    rw [h1, List.head?_map, hv, Option.map_some']
  · show ((db.users.filter (fun x => x.id == v.owner)).map _).head? = _
    rw [List.head?_map, hu, Option.map_some']

/-- Witness for claim C3 at a concrete store: the published sample video with
one like and one subscriber, fetched as a guest. -/
theorem claim_C3_witness :
    (getVideoByIdForGuest oidA dbMain).1 = .ok (some (guestDetailOf dbMain vPub)) ∧
    (guestDetailOf dbMain vPub).isLiked = false ∧
    (guestDetailOf dbMain vPub).isSubscribed = none ∧
    (guestDetailOf dbMain vPub).likesCount =
      (dbMain.likes.filter (fun l => l.video == vPub.id)).length ∧
    (guestDetailOf dbMain vPub).owner = some
      { id := uOwner.id, username := uOwner.username, avatarUrl := uOwner.avatarUrl,
        subscribersCount :=
          (dbMain.subs.filter (fun s => s.channel == uOwner.id)).length } :=
  claim_C3 dbMain oidA vPub uOwner (by decide) (by decide) (by decide) (by decide)

/-- The channel-profile $addFields fails on every matched user: its very first
expression takes $size of the field path "$subscribers", which no stage of this
pipeline ever produces (the lookup alias is "subcription"). -/
theorem channelAddFields_err (uid : Option String) (m : MatchedChannel) :
    channelAddFields uid m =
      .error "The argument to $size must be an array, but was of type: missing" := rfl

/-- mapM over Except fails immediately when the function fails on the head. -/
theorem mapM_head_err {α β : Type} (f : α → Except String β) (e : String)
    (hf : ∀ a, f a = .error e) (x : α) (xs : List α) :
    (x :: xs).mapM f = .error e := by
  rw [List.mapM_cons, hf x]
  rfl

/-- Claim C4, settled on the code: for any existing username (matched after
lowercase normalisation) the channel profile aggregation errors out instead of
returning the subscriber / subscribed-to counts, because its $addFields
references the nonexistent field "$subscribers" (and "subscribedTo" and
"subscribers.subscriber" without the `$` path prefix). -/
theorem claim_C4 (db : DB) (un : String) (uid : Option String) (u : UserDoc)
    (rest : List UserDoc)
    (hblank : blankStr un = false)
    (hmatch : db.users.filter (fun x => x.username == lowerStr un) = u :: rest) :
    (getUserChannelProfile un uid db).1 =
      .error ⟨500,
        "The argument to $size must be an array, but was of type: missing"⟩ := by
  have hmap : List.mapM (channelAddFields uid)
      (matchedChannelOf db u :: List.map (matchedChannelOf db) rest)
      = .error "The argument to $size must be an array, but was of type: missing" :=
    mapM_head_err _ _ (fun a => channelAddFields_err uid a) _ _
  have hres : getUserChannelProfile un uid db =
      (.error ⟨500,
        "The argument to $size must be an array, but was of type: missing"⟩,
       ["User.aggregate"]) := by
    simp only [getUserChannelProfile, hblank, Bool.false_eq_true, if_false,
      hmatch, List.map_cons, hmap]
  rw [hres]

/-- Witness for claim C4: the sample owner "alice", looked up with the casing
"Alice", with one stored subscription to her channel. -/
theorem claim_C4_witness :
    (getUserChannelProfile "Alice" (some oidC) dbMain).1 =
      .error ⟨500,
        "The argument to $size must be an array, but was of type: missing"⟩ :=
  claim_C4 dbMain "Alice" (some oidC) uOwner [] (by decide) (by decide)

/-- Claim C5, settled on the code: with an absent viewer identity the channel
profile operation never returns a profile with isSubscribed = false — the
aggregation fails for every existing username — and the isSubscribed
expression itself does attempt the membership test, against the string literal
"subscribers.subscriber" (missing `$`), which is an error, never `false`. -/
theorem claim_C5 :
    (∀ (db : DB) (un : String) (u : UserDoc) (rest : List UserDoc),
      blankStr un = false →
      db.users.filter (fun x => x.username == lowerStr un) = u :: rest →
      ∀ p, (getUserChannelProfile un none db).1 ≠ .ok p) ∧
    (∀ m : MatchedChannel, chanIsSubscribed none m =
      .error "$in requires an array as a second argument") := by
  constructor
  · intro db un u rest hblank hmatch p
    have hmap : List.mapM (channelAddFields none)
        (matchedChannelOf db u :: List.map (matchedChannelOf db) rest)
        = .error "The argument to $size must be an array, but was of type: missing" :=
      mapM_head_err _ _ (fun a => channelAddFields_err none a) _ _
    have hres : getUserChannelProfile un none db =
        (.error ⟨500,
          "The argument to $size must be an array, but was of type: missing"⟩,
         ["User.aggregate"]) := by
      simp only [getUserChannelProfile, hblank, Bool.false_eq_true, if_false,
        hmatch, List.map_cons, hmap]
    rw [hres]
    exact fun h => Except.noConfusion h
  · intro m
    rfl

/-- Witness for claim C5: guest lookup of the sample channel "alice". -/
theorem claim_C5_witness :
    (∀ p, (getUserChannelProfile "alice" none dbMain).1 ≠ .ok p) ∧
    chanIsSubscribed none (matchedChannelOf dbMain uOwner) =
      .error "$in requires an array as a second argument" :=
  ⟨claim_C5.1 dbMain "alice" uOwner [] (by decide) (by decide),
   claim_C5.2 (matchedChannelOf dbMain uOwner)⟩

/-- The feed pipeline construction succeeds and builds exactly the spec's
stage list whenever the owner filter, if requested, carries a well-formed
identifier. -/
theorem pipeline_eval (q u sb st : Option String)
    (hok : truthy u = true → isValidObjectId (u.getD "") = true) :
    getAllVideosPipeline q u sb st = .ok (specStages q u sb st) := by
  have hc : (truthy u && !(isValidObjectId (u.getD ""))) = false := by
    cases hu : truthy u
    · simp
    · simp [hok hu]
  cases hq : truthy q <;> cases hu : truthy u <;>
      cases hs : (truthy sb && truthy st) <;>
    simp [getAllVideosPipeline, specStages, specSortStage, hc, hq, hu, hs] <;>
    exact hok hu

/-- Whenever the feed pipeline construction returns a stage list, it is the
spec's stage list. -/
theorem pipeline_ok_shape (q u sb st : Option String) (stages : List PStage)
    (h : getAllVideosPipeline q u sb st = .ok stages) :
    stages = specStages q u sb st := by
  by_cases hc : (truthy u && !(isValidObjectId (u.getD ""))) = true
  · exfalso
    simp [getAllVideosPipeline, hc] at h
  · have hc' : (truthy u && !(isValidObjectId (u.getD ""))) = false := by
      revert hc; cases (truthy u && !(isValidObjectId (u.getD ""))) <;> simp
    have hok : truthy u = true → isValidObjectId (u.getD "") = true := by
      intro hu
      rw [hu] at hc'
      revert hc'; cases isValidObjectId (u.getD "") <;> simp
    have he := pipeline_eval q u sb st hok
    rw [he] at h
    injection h with h'
    exact h'.symm

/-- Executing stage lists concatenates by function composition. -/
theorem runStages_append (db : DB) (s1 s2 : List PStage) (docs : List PipeDoc) :
    runStages db (s1 ++ s2) docs = runStages db s2 (runStages db s1 docs) :=
  List.foldl_append _ _ _ _

/-- Executing the spec's stage list is exactly the composition of the six
stage functions in the spec's fixed order. -/
theorem runStages_spec (db : DB) (q u sb st : Option String)
    (docs : List PipeDoc) :
    runStages db (specStages q u sb st) docs =
      applyStage db .unwindOwner (applyStage db .lookupOwner
        (applyStage db (specSortStage sb st)
          (applyStage db .matchPublished
            ((if truthy u then applyStage db (.matchOwner (u.getD "")) else id)
              ((if truthy q then applyStage db (.search (q.getD "")) else id)
                docs))))) := by
  cases hq : truthy q <;> cases hu : truthy u <;>
    simp [specStages, runStages, hq, hu]

/-- Claim C6: the feed pipeline applies its stages in the fixed order — search,
owner filter (rejecting a malformed owner identifier with a validation error
before any store call), published-only filter, sort (requested field/direction
or createdAt descending), owner join, unwind — and pagination slices last. -/
theorem claim_C6 (ps : FeedParams) (db : DB) :
    (truthy ps.userId = true → isValidObjectId (ps.userId.getD "") = false →
      getAllVideos ps db = (.error ⟨400, "Invalid userId"⟩, [])) ∧
    ((truthy ps.userId = true → isValidObjectId (ps.userId.getD "") = true) →
      getAllVideosPipeline ps.query ps.userId ps.sortBy ps.sortType =
        .ok (specStages ps.query ps.userId ps.sortBy ps.sortType) ∧
      (∀ docs, runStages db
          (specStages ps.query ps.userId ps.sortBy ps.sortType) docs =
        applyStage db .unwindOwner (applyStage db .lookupOwner
          (applyStage db (specSortStage ps.sortBy ps.sortType)
            (applyStage db .matchPublished
              ((if truthy ps.userId then
                  applyStage db (.matchOwner (ps.userId.getD "")) else id)
                ((if truthy ps.query then
                    applyStage db (.search (ps.query.getD "")) else id)
                  docs)))))) ∧
      (getAllVideos ps db).1 =
        (match paginateJs (pageNumOf ps.page 1) (pageNumOf ps.limit 10)
            (runStages db (specStages ps.query ps.userId ps.sortBy ps.sortType)
              (db.videos.map (fun v => ⟨v, []⟩))) with
         | some pg => .ok pg
         | none => .error ⟨500, "aggregatePaginate failed"⟩)) := by
  constructor
  · intro h1 h2
    simp [getAllVideos, getAllVideosPipeline, h1, h2]
  · intro himp
    have hpipe := pipeline_eval ps.query ps.userId ps.sortBy ps.sortType himp
    refine ⟨hpipe, runStages_spec db ps.query ps.userId ps.sortBy ps.sortType, ?_⟩
    cases hp : paginateJs (pageNumOf ps.page 1) (pageNumOf ps.limit 10)
        (runStages db (specStages ps.query ps.userId ps.sortBy ps.sortType)
          (db.videos.map (fun v => ⟨v, []⟩))) <;>
      simp [getAllVideos, hpipe, hp]

/-- Witness for claim C6: a malformed owner id "zzz" is rejected with the
validation error and no store call; a well-formed one builds the spec's stage
list. -/
theorem claim_C6_witness :
    getAllVideos ⟨none, none, none, none, none, some "zzz"⟩ dbMain =
      (.error ⟨400, "Invalid userId"⟩, []) ∧
    getAllVideosPipeline none (some oidB) none none =
      .ok (specStages none (some oidB) none none) :=
  ⟨(claim_C6 ⟨none, none, none, none, none, some "zzz"⟩ dbMain).1
     (by decide) (by decide),
   ((claim_C6 ⟨none, none, none, none, none, some oidB⟩ dbMain).2
     (fun _ => by decide)).1⟩

/-- Membership is preserved by sorted insertion. -/
theorem mem_insertLe {α : Type} (le : α → α → Bool) (a x : α) (l : List α) :
    x ∈ insertLe le a l ↔ x = a ∨ x ∈ l := by
  induction l with
  | nil => simp [insertLe]
  | cons b bs ih =>
    by_cases h : le a b = true
    · simp [insertLe, h]
    · simp [insertLe, h, ih]
      tauto

/-- Membership is preserved by the insertion sort modelling $sort. -/
theorem mem_sortWith {α : Type} (le : α → α → Bool) (x : α) (l : List α) :
    x ∈ sortWith le l ↔ x ∈ l := by
  induction l with
  | nil => simp [sortWith]
  | cons a as ih => simp [sortWith, mem_insertLe, ih]

/-- A successful pagination slice only returns documents of its input. -/
theorem paginateJs_subset {α : Type} (p l : Option Int) (docs pg : List α)
    (h : paginateJs p l docs = some pg) : pg ⊆ docs := by
  cases p with
  | none => cases h
  | some pi =>
    cases l with
    | none => cases h
    | some li =>
      simp only [paginateJs] at h
      by_cases hc : 1 ≤ pi ∧ 0 ≤ li
      · rw [if_pos hc] at h
        injection h with h'
        intro x hx
        rw [← h'] at hx
        exact List.drop_subset _ _ (List.take_subset _ _ hx)
      · rw [if_neg hc] at h
        cases h

/-- Every stage preserves "all documents are published". -/
theorem applyStage_pres (db : DB) (s : PStage) (docs : List PipeDoc)
    (h : ∀ d ∈ docs, d.v.isPublished = true) :
    ∀ d ∈ applyStage db s docs, d.v.isPublished = true := by
  cases s with
  | search q => exact fun d hd => h d (List.mem_filter.mp hd).1
  | matchOwner uid => exact fun d hd => h d (List.mem_filter.mp hd).1
  | matchPublished => exact fun d hd => h d (List.mem_filter.mp hd).1
  | sortOn f asc => exact fun d hd => h d ((mem_sortWith _ _ _).mp hd)
  | lookupOwner =>
    intro d hd
    obtain ⟨a, ha, rfl⟩ := List.mem_map.mp hd
    exact h a ha
  | unwindOwner =>
    intro d hd
    obtain ⟨a, ha, hd2⟩ := List.mem_flatMap.mp hd
    obtain ⟨o, ho, rfl⟩ := List.mem_map.mp hd2
    exact h a ha

/-- Running any stage list preserves "all documents are published". -/
theorem runStages_pres (db : DB) (stages : List PStage) (docs : List PipeDoc)
    (h : ∀ d ∈ docs, d.v.isPublished = true) :
    ∀ d ∈ runStages db stages docs, d.v.isPublished = true := by
  induction stages generalizing docs with
  | nil => exact h
  | cons s ss ih => exact ih (applyStage db s docs) (applyStage_pres db s docs h)

/-- Claim C7: whatever the search query, owner filter, sort specification and
pagination parameters, every video the feed operation returns is published. -/
theorem claim_C7 (ps : FeedParams) (db : DB) (pg : List PipeDoc)
    (hok : (getAllVideos ps db).1 = .ok pg) :
    ∀ d ∈ pg, d.v.isPublished = true := by
  cases hpipe : getAllVideosPipeline ps.query ps.userId ps.sortBy ps.sortType with
  | error e =>
    exfalso
    simp [getAllVideos, hpipe] at hok
  | ok stages =>
    have hshape := pipeline_ok_shape _ _ _ _ _ hpipe
    subst hshape
    cases hpag : paginateJs (pageNumOf ps.page 1) (pageNumOf ps.limit 10)
        (runStages db (specStages ps.query ps.userId ps.sortBy ps.sortType)
          (db.videos.map (fun v => ⟨v, []⟩))) with
    | none =>
      exfalso
      simp [getAllVideos, hpipe, hpag] at hok
    | some pg2 =>
      have hpg : pg2 = pg := by
        simp [getAllVideos, hpipe, hpag] at hok
        exact hok
      subst hpg
      have hsub := paginateJs_subset _ _ _ _ hpag
      intro d hd
      have hd' := hsub hd
      have hsplit : specStages ps.query ps.userId ps.sortBy ps.sortType =
          ((if truthy ps.query then [PStage.search (ps.query.getD "")] else []) ++
           (if truthy ps.userId then [PStage.matchOwner (ps.userId.getD "")] else [])) ++
          (PStage.matchPublished ::
            [specSortStage ps.sortBy ps.sortType, .lookupOwner, .unwindOwner]) := by
        simp [specStages, List.append_assoc]
      rw [hsplit, runStages_append] at hd'
      exact runStages_pres db
        [specSortStage ps.sortBy ps.sortType, .lookupOwner, .unwindOwner]
        (applyStage db .matchPublished _)
        (fun d2 hd2 => (List.mem_filter.mp hd2).2) d hd'

/-- Witness for claim C7: the default feed over the sample store (which holds
one published and one unpublished video) returns exactly the published one. -/
theorem claim_C7_witness :
    (getAllVideos ⟨none, none, none, none, none, none⟩ dbMain).1 =
      .ok [⟨vPub, [⟨oidB, "alice", "avA"⟩]⟩] ∧
    (⟨vPub, [⟨oidB, "alice", "avA"⟩]⟩ : PipeDoc).v.isPublished = true :=
  ⟨by decide,
   claim_C7 ⟨none, none, none, none, none, none⟩ dbMain
     [⟨vPub, [⟨oidB, "alice", "avA"⟩]⟩] (by decide) _ (by decide)⟩

/-- Claim C8: deleteVideo first performs and checks the primary delete — when
the store-level delete fails, a 500 is reported, the store is unchanged and no
cascade call is issued — and on success it removes every Like and Comment
referencing the video, requests removal of both stored media objects, and a
subsequent detail fetch for the video answers Not-Found. -/
theorem claim_C8 (db : DB) (vid : String) (cur : VideoDoc)
    (hfind : db.videos.find? (fun x => x.id == vid) = some cur) :
    ((deleteVideo vid false db).res = .error ⟨500, "Video deletion failed"⟩ ∧
     (deleteVideo vid false db).db = db ∧
     (deleteVideo vid false db).calls =
       ["Video.findById", "Video.findByIdAndDelete"]) ∧
    ((deleteVideo vid true db).res = .ok [cur.videoFileId, cur.thumbFileId] ∧
     (deleteVideo vid true db).calls =
       ["Video.findById", "Video.findByIdAndDelete", "Like.deleteMany",
        "Comment.deleteMany", "cloudinary.destroy", "cloudinary.destroy"] ∧
     (∀ l ∈ (deleteVideo vid true db).db.likes, (l.video == vid) = false) ∧
     (∀ c ∈ (deleteVideo vid true db).db.comments, (c.video == vid) = false) ∧
     (blankStr vid = false → isValidObjectId vid = true →
       (getVideoById vid false none ((deleteVideo vid true db).db)).1 =
         .error ⟨404, "Video not found"⟩)) := by
  have e1 : deleteVideo vid false db =
      ⟨.error ⟨500, "Video deletion failed"⟩, db,
       ["Video.findById", "Video.findByIdAndDelete"]⟩ := by
    simp [deleteVideo, hfind]
  have e2 : deleteVideo vid true db =
      ⟨.ok [cur.videoFileId, cur.thumbFileId],
       { db with
          videos := db.videos.filter (fun v => !(v.id == vid)),
          likes := db.likes.filter (fun l => !(l.video == vid)),
          comments := db.comments.filter (fun c => !(c.video == vid)) },
       ["Video.findById", "Video.findByIdAndDelete", "Like.deleteMany",
        "Comment.deleteMany", "cloudinary.destroy", "cloudinary.destroy"]⟩ := by
    simp [deleteVideo, hfind]
  refine ⟨⟨by rw [e1], by rw [e1], by rw [e1]⟩, by rw [e2], by rw [e2],
    ?_, ?_, ?_⟩
  · intro l hl
    rw [e2] at hl
    have h2 := (List.mem_filter.mp hl).2
    revert h2; cases (l.video == vid) <;> simp
  · intro c hc
    rw [e2] at hc
    have h2 := (List.mem_filter.mp hc).2
    revert h2; cases (c.video == vid) <;> simp
  · intro hblank hvalid
    rw [e2]
    have hmatched : (db.videos.filter (fun v => !(v.id == vid))).filter
        (fun v => v.id == vid) = [] := by
      rw [List.filter_filter]
      simp
    simp [getVideoById, hblank, hvalid, hmatched]

/-- Witness for claim C8 on the sample store: a failed primary delete reports
500 with the store untouched, and a successful one requests both media
removals and makes the detail fetch answer 404. -/
theorem claim_C8_witness :
    (deleteVideo oidA false dbMain).res =
      .error ⟨500, "Video deletion failed"⟩ ∧
    (deleteVideo oidA false dbMain).db = dbMain ∧
    (deleteVideo oidA true dbMain).res = .ok [vPub.videoFileId, vPub.thumbFileId] ∧
    (getVideoById oidA false none ((deleteVideo oidA true dbMain).db)).1 =
      .error ⟨404, "Video not found"⟩ :=
  ⟨((claim_C8 dbMain oidA vPub (by decide)).1).1,
   ((claim_C8 dbMain oidA vPub (by decide)).1).2.1,
   ((claim_C8 dbMain oidA vPub (by decide)).2).1,
   ((claim_C8 dbMain oidA vPub (by decide)).2).2.2.2.2 (by decide) (by decide)⟩

/-- Claim C9, evaluated on the code at a concrete input: deleteVideo never
validates its identifier — with the malformed identifier "not-an-id" it still
issues the store lookup and reports a 404 from the store, not a validation
error — and a malformed pagination parameter ("abc") is not rejected either:
the aggregatePaginate store call is still issued and fails inside the store. -/
theorem claim_C9_counterexample :
    isValidObjectId "not-an-id" = false ∧
    (deleteVideo "not-an-id" true dbMain).calls = ["Video.findById"] ∧
    (deleteVideo "not-an-id" true dbMain).res = .error ⟨404, "Video not found"⟩ ∧
    parseIntJs "abc" = none ∧
    (getAllVideos ⟨some "abc", none, none, none, none, none⟩ dbMain).2 =
      ["Video.aggregatePaginate"] ∧
    (getAllVideos ⟨some "abc", none, none, none, none, none⟩ dbMain).1 =
      .error ⟨500, "aggregatePaginate failed"⟩ := by
  refine ⟨by decide, by decide, by decide, by decide, by decide, by decide⟩

/-- Claim C9 as amended: the operations that do validate — the feed's owner
filter, both detail fetches, and the watch-history upsert — reject a malformed
identifier with a 400 validation error and an empty store-call trace; the
amendment is that deleteVideo and the pagination parameters are excluded. -/
theorem claim_C9_amended :
    (∀ (db : DB) (page limit q sb st : Option String) (uS : String),
      truthy (some uS) = true → isValidObjectId uS = false →
      getAllVideos ⟨page, limit, q, sb, st, some uS⟩ db =
        (.error ⟨400, "Invalid userId"⟩, [])) ∧
    (∀ (db : DB) (vid : String) (g : Bool) (uid : Option String),
      isValidObjectId vid = false →
      (getVideoById vid g uid db).2 = [] ∧
      ∃ m, (getVideoById vid g uid db).1 = .error ⟨400, m⟩) ∧
    (∀ (db : DB) (vid : String),
      isValidObjectId vid = false →
      (getVideoByIdForGuest vid db).2 = [] ∧
      ∃ m, (getVideoByIdForGuest vid db).1 = .error ⟨400, m⟩) ∧
    (∀ (db : DB) (vid : String) (uid : Option String) (t : Int),
      isValidObjectId vid = false →
      (updateVideoViews vid uid t db).calls = [] ∧
      (updateVideoViews vid uid t db).db = db ∧
      (updateVideoViews vid uid t db).res = .error ⟨400, "Invalid videoId"⟩) := by
  refine ⟨?_, ?_, ?_, ?_⟩
  · intro db page limit q sb st uS htr hinv
    simp [getAllVideos, getAllVideosPipeline, htr, hinv]
  · intro db vid g uid hinv
    cases hb : blankStr vid
    · exact ⟨by simp [getVideoById, hb, hinv],
        ⟨"Invalid VideoID", by simp [getVideoById, hb, hinv]⟩⟩
    · exact ⟨by simp [getVideoById, hb],
        ⟨"Video Id is missing", by simp [getVideoById, hb]⟩⟩
  · intro db vid hinv
    cases hb : blankStr vid
    · exact ⟨by simp [getVideoByIdForGuest, hb, hinv],
        ⟨"Invalid VideoID", by simp [getVideoByIdForGuest, hb, hinv]⟩⟩
    · exact ⟨by simp [getVideoByIdForGuest, hb],
        ⟨"Video Id is missing", by simp [getVideoByIdForGuest, hb]⟩⟩
  · intro db vid uid t hinv
    exact ⟨by simp [updateVideoViews, hinv], by simp [updateVideoViews, hinv],
      by simp [updateVideoViews, hinv]⟩

/-- Witness for the amended claim C9 with the malformed identifier "zzz". -/
theorem claim_C9_witness :
    getAllVideos ⟨none, none, none, none, none, some "zzz"⟩ dbMain =
      (.error ⟨400, "Invalid userId"⟩, []) ∧
    (getVideoById "zzz" false none dbMain).2 = [] ∧
    (getVideoByIdForGuest "zzz" dbMain).2 = [] ∧
    (updateVideoViews "zzz" (some oidC) 3 dbMain).calls = [] :=
  ⟨claim_C9_amended.1 dbMain none none none none none "zzz" (by decide) (by decide),
   (claim_C9_amended.2.1 dbMain "zzz" false none (by decide)).1,
   (claim_C9_amended.2.2.1 dbMain "zzz" (by decide)).1,
   (claim_C9_amended.2.2.2 dbMain "zzz" (some oidC) 3 (by decide)).1⟩

/-- Claim C10: the authenticated detail operation matches only on the
identifier — no published check and no ownership check — so it returns the
full detail record for any existing video, published or not, to any caller. -/
theorem claim_C10 (db : DB) (vid : String) (isGuest : Bool) (uid : Option String)
    (v : VideoDoc)
    (hblank : blankStr vid = false)
    (hvalid : isValidObjectId vid = true)
    (hv : (db.videos.filter (fun x => x.id == vid)).head? = some v) :
    (getVideoById vid isGuest uid db).1 = .ok (authDetailOf db isGuest uid v) := by
  obtain ⟨tl, htl⟩ : ∃ tl, db.videos.filter (fun x => x.id == vid) = v :: tl := by
    cases hf : db.videos.filter (fun x => x.id == vid) with
    | nil => rw [hf] at hv; cases hv
    | cons a tl =>
      rw [hf] at hv
      injection hv with hv'
      exact ⟨tl, by rw [hv']⟩
  simp [getVideoById, hblank, hvalid, htl]

/-- Witness for claim C10: the unpublished sample video is fully visible to an
authenticated viewer who is not its owner. -/
theorem claim_C10_witness :
    vUnpub.isPublished = false ∧
    (vUnpub.owner == oidC) = false ∧
    (getVideoById oidD false (some oidC) dbMain).1 =
      .ok (authDetailOf dbMain false (some oidC) vUnpub) :=
  ⟨rfl, by decide,
   claim_C10 dbMain oidD false (some oidC) vUnpub (by decide) (by decide)
     (by decide)⟩
